import Mathlib

/-!
Shallow embedding of the render-coordination subsystem of the tracelens
repository: the trace-visualization store, the resize significance test,
the debounced render scheduler of the control panel, the canvas wheel
zoom handler, the Tauri render-call wrapper, and the render loader hook.
Every definition is translated from the TypeScript source.
-/

namespace TraceLens

/-- Render mode selection, from types/rendering.ts. -/
inductive RenderMode where
  | variableDensity
  | wiggle
  | wiggleVariableDensity
deriving DecidableEq

/-- Supported colormaps, from types/rendering.ts. -/
inductive ColormapType where
  | seismic
  | grayscale
  | grayscaleInverted
  | viridis
deriving DecidableEq

/-- Subset of traces and canvas dimensions to render, from types/rendering.ts.
Fields are JS numbers; modelled as integers (all writes in the source are
integer-valued). -/
structure ViewportConfig where
  startTrace : ℤ
  traceCount : ℤ
  width : ℤ
  height : ℤ
deriving DecidableEq

/-- Amplitude scaling strategies, from types/rendering.ts (a tagged union). -/
inductive AmplitudeScaling where
  | global (maxAmplitude : ℚ)
  | perTrace (windowSize : Option ℤ)
  | percentile (percentile : ℚ)
  | manual (scale : ℚ)
deriving DecidableEq

/-- Wiggle render configuration, from types/rendering.ts. -/
structure WiggleConfig where
  lineWidth : ℚ
  lineColor : ℤ × ℤ × ℤ
  fillPositive : Bool
  fillNegative : Bool
  positiveFillColor : ℤ × ℤ × ℤ
  negativeFillColor : ℤ × ℤ × ℤ
deriving DecidableEq

/-- Partial viewport update: each field may be absent, as in the TS
`Partial<ViewportConfig>` accepted by `updateViewport`. -/
structure ViewportPartial where
  startTrace : Option ℤ := none
  traceCount : Option ℤ := none
  width : Option ℤ := none
  height : Option ℤ := none
deriving DecidableEq

/-- Initial viewport used before the canvas is measured
(traceVisualizationStore, `DEFAULT_VIEWPORT`). -/
def DEFAULT_VIEWPORT : ViewportConfig :=
  { startTrace := 0, traceCount := 500, width := 800, height := 600 }

/-- Default wiggle rendering parameters (traceVisualizationStore,
`DEFAULT_WIGGLE_CONFIG`). -/
def DEFAULT_WIGGLE_CONFIG : WiggleConfig :=
  { lineWidth := 1
    lineColor := (0, 0, 0)
    fillPositive := true
    fillNegative := false
    positiveFillColor := (0, 0, 0)
    negativeFillColor := (255, 0, 0) }

/-- The zustand store state from traceVisualizationStore.ts.  The displayable
image (`HTMLImageElement | ImageData | null`) is opaque to this subsystem and
modelled as a natural-number identifier. -/
structure TraceVisualizationState where
  renderMode : RenderMode
  colormap : ColormapType
  amplitudeScaling : AmplitudeScaling
  viewport : ViewportConfig
  wiggleConfig : WiggleConfig
  currentImage : Option ℕ
  isRendering : Bool
  showControls : Bool
  zoomLevel : ℚ
  panOffset : ℚ × ℚ
  canvasSize : ℤ × ℤ
deriving DecidableEq

/-- Initial store state (traceVisualizationStore.ts, creation argument). -/
def initialState : TraceVisualizationState :=
  { renderMode := RenderMode.variableDensity
    colormap := ColormapType.grayscale
    amplitudeScaling := AmplitudeScaling.percentile (98 / 100)
    viewport := DEFAULT_VIEWPORT
    wiggleConfig := DEFAULT_WIGGLE_CONFIG
    currentImage := none
    isRendering := false
    showControls := true
    zoomLevel := 1
    panOffset := (0, 0)
    canvasSize := (800, 600) }

/-- The `updateViewport` action of the store: spreads the partial over the
current viewport (`{ ...state.viewport, ...partial }`).  No clamping occurs. -/
def updateViewport (v : ViewportConfig) (p : ViewportPartial) : ViewportConfig :=
  { startTrace := p.startTrace.getD v.startTrace
    traceCount := p.traceCount.getD v.traceCount
    width := p.width.getD v.width
    height := p.height.getD v.height }

/-- One store mutation, mirroring the setter actions of
traceVisualizationStore.ts. -/
inductive StoreAction where
  | setRenderMode (m : RenderMode)
  | setColormap (c : ColormapType)
  | setAmplitudeScaling (sc : AmplitudeScaling)
  | updateViewportAction (p : ViewportPartial)
  | setCurrentImage (img : Option ℕ)
  | setIsRendering (b : Bool)
  | setZoomLevel (z : ℚ)
  | setPanOffset (off : ℚ × ℚ)
  | setCanvasSize (sz : ℤ × ℤ)
  | resetView
deriving DecidableEq

/-- Effect of each store setter on the state, from the action bodies of
traceVisualizationStore.ts. -/
def applyAction (s : TraceVisualizationState) : StoreAction → TraceVisualizationState
  | StoreAction.setRenderMode m => { s with renderMode := m }
  | StoreAction.setColormap c => { s with colormap := c }
  | StoreAction.setAmplitudeScaling sc => { s with amplitudeScaling := sc }
  | StoreAction.updateViewportAction p => { s with viewport := updateViewport s.viewport p }
  | StoreAction.setCurrentImage img => { s with currentImage := img }
  | StoreAction.setIsRendering b => { s with isRendering := b }
  | StoreAction.setZoomLevel z => { s with zoomLevel := z }
  | StoreAction.setPanOffset off => { s with panOffset := off }
  | StoreAction.setCanvasSize sz => { s with canvasSize := sz }
  | StoreAction.resetView =>
      { s with viewport := DEFAULT_VIEWPORT, zoomLevel := 1, panOffset := (0, 0) }

/-- Kinds of react-hot-toast notifications emitted by the loader. -/
inductive ToastKind where
  | loading
  | success
  | error
deriving DecidableEq

/-- Render-call payload sent to the backend, from the invoke arguments of
renderVariableDensity in services/tauri/segy.ts. -/
structure RenderPayload where
  filePath : String
  viewport : ViewportConfig
  colormapType : ColormapType
  scaling : AmplitudeScaling
  renderMode : RenderMode
  wiggleConfig : Option WiggleConfig
deriving DecidableEq

/-- `renderVariableDensity` from services/tauri/segy.ts: builds the invoke
payload; `wiggleConfig` is passed through when the render mode is not
pure variable-density and replaced by `null` otherwise. -/
def renderVariableDensity (filePath : String) (viewport : ViewportConfig)
    (colormapType : ColormapType) (scaling : AmplitudeScaling)
    (renderMode : RenderMode) (wiggleConfig : WiggleConfig) : RenderPayload :=
  { filePath := filePath
    viewport := viewport
    colormapType := colormapType
    scaling := scaling
    renderMode := renderMode
    wiggleConfig :=
      if renderMode ≠ RenderMode.variableDensity then some wiggleConfig else none }

/-- Observable event of one loader execution: a store mutation, a toast
notification, or a call to the external renderer. -/
inductive Event where
  | store (a : StoreAction)
  | toast (kind : ToastKind) (msg : String)
  | rendererCall (payload : RenderPayload)
deriving DecidableEq

/-- Fold a list of events over the store: store actions mutate the state,
toasts and renderer calls do not touch it. -/
def applyEvents (s : TraceVisualizationState) (evs : List Event) : TraceVisualizationState :=
  evs.foldl (fun st ev =>
    match ev with
    | Event.store a => applyAction st a
    | _ => st) s

/-- Mode label used in the loader toasts (useTraceLoader.ts). -/
def modeLabel : RenderMode → String
  | RenderMode.variableDensity => "VD"
  | RenderMode.wiggle => "Wiggle"
  | RenderMode.wiggleVariableDensity => "Wiggle+VD"

/-- JS truthiness test for the `!filePath` guard: null and the empty string
are falsy. -/
def jsFalsyString : Option String → Bool
  | none => true
  | some st => decide (st = "")

/-- Outcome of one render call as observed by the loader: the backend
resolved and the PNG decoded, the backend rejected, or the decode of the
returned bytes failed (createImageFromRendered rejects). -/
inductive RenderOutcome where
  | success (img : ℕ)
  | rendererError (msg : String)
  | decodeError
deriving DecidableEq

/-- Events of the loader body before the await point: set `isRendering`,
show the loading toast, issue the renderer call
(useTraceLoader.ts, lines 35-49). -/
def issuePhase (filePath : String) (renderMode : RenderMode) (colormap : ColormapType)
    (scaling : AmplitudeScaling) (viewport : ViewportConfig)
    (wiggleConfig : WiggleConfig) : List Event :=
  [ Event.store (StoreAction.setIsRendering true),
    Event.toast ToastKind.loading ("Rendering " ++ modeLabel renderMode ++ " view..."),
    Event.rendererCall
      (renderVariableDensity filePath viewport colormap scaling renderMode wiggleConfig) ]

/-- Events of the loader body after the await point: on success commit the
image and toast success; on any failure toast the error; in every case the
`finally` block resets `isRendering` (useTraceLoader.ts, lines 51-62).
A decode failure rejects with the fixed message of createImageFromRendered
and is caught by the same handler. -/
def resolvePhase (renderMode : RenderMode) : RenderOutcome → List Event
  | RenderOutcome.success img =>
      [ Event.store (StoreAction.setCurrentImage (some img)),
        Event.toast ToastKind.success ("Render complete"),
        Event.store (StoreAction.setIsRendering false) ]
  | RenderOutcome.rendererError msg =>
      [ Event.toast ToastKind.error
          ("Rendering failed for " ++ modeLabel renderMode ++ ": " ++ msg),
        Event.store (StoreAction.setIsRendering false) ]
  | RenderOutcome.decodeError =>
      [ Event.toast ToastKind.error
          ("Rendering failed for " ++ modeLabel renderMode ++
            ": Failed to load rendered image from backend data"),
        Event.store (StoreAction.setIsRendering false) ]

/-- Full event trace of one call to `loadAndRenderVariableDensity`
(useTraceLoader.ts): the no-file guard short-circuits with an error toast;
otherwise the issue phase runs, the call suspends, and the resolve phase
runs with the call's outcome. -/
def loadAndRenderVariableDensity (filePath : Option String) (segyData : Option Unit)
    (renderMode : RenderMode) (colormap : ColormapType) (scaling : AmplitudeScaling)
    (viewport : ViewportConfig) (wiggleConfig : WiggleConfig)
    (outcome : RenderOutcome) : List Event :=
  if jsFalsyString filePath || segyData.isNone then
    [ Event.toast ToastKind.error ("Cannot render: No SEG-Y file loaded") ]
  else
    issuePhase (filePath.getD "") renderMode colormap scaling viewport wiggleConfig ++
      resolvePhase renderMode outcome

/-- JS `Math.round`: round half toward positive infinity. -/
def jsRound (q : ℚ) : ℤ := ⌊q + 1 / 2⌋

/-- `isResizeSignificant` from TraceVisualizationContainer.tsx (lines 24-43):
area delta against `max(2000, round(0.005 * currentArea))`, and each
dimension delta against `max(6, round(0.008 * min(w0, h0)))`. -/
def isResizeSignificant (w0 h0 w1 h1 : ℤ) : Bool :=
  let currentArea := w0 * h0
  let nextArea := w1 * h1
  let areaDelta := |nextArea - currentArea|
  let areaThreshold := max 2000 (jsRound ((currentArea : ℚ) * (5 / 1000)))
  let dimensionThreshold := max 6 (jsRound (((min w0 h0 : ℤ) : ℚ) * (8 / 1000)))
  decide (areaThreshold ≤ areaDelta) ||
    decide (dimensionThreshold ≤ |w1 - w0|) ||
    decide (dimensionThreshold ≤ |h1 - h0|)

/-- `clampSize` from TraceVisualizationContainer.tsx (lines 19-22):
round each raw dimension and clamp to a minimum of 100. -/
def clampSize (raw : ℚ) : ℤ := max 100 (jsRound raw)

/-- Decision of `handleResize` (TraceVisualizationContainer.tsx, lines 54-85):
after clamping the raw measurement, a debounced viewport commit is scheduled
iff the clamped size is a significant change against the committed viewport;
otherwise the pending timer is cancelled and nothing is scheduled. -/
def handleResizeSchedules (viewport : ViewportConfig) (rawW rawH : ℚ) : Bool :=
  isResizeSignificant viewport.width viewport.height (clampSize rawW) (clampSize rawH)

/-- `handleWheel` from TraceCanvas.tsx (lines 69-74): multiply the zoom by
0.9 when deltaY is positive (scroll down) and by 1.1 otherwise, then clamp
into [0.1, 10]. -/
def handleWheel (zoomLevel : ℚ) (deltaY : ℚ) : ℚ :=
  let delta : ℚ := if deltaY > 0 then 9 / 10 else 11 / 10
  max (1 / 10) (min 10 (zoomLevel * delta))

/-- Zoom level after a sequence of wheel events. -/
def zoomAfter (z0 : ℚ) (evs : List ℚ) : ℚ := evs.foldl handleWheel z0

/-- Render-relevant key watched by the control-panel effect
(TraceControlPanel.tsx, dependency array on line 68). -/
structure RenderConfig where
  renderMode : RenderMode
  colormap : ColormapType
  amplitudeScaling : AmplitudeScaling
  viewport : ViewportConfig
deriving DecidableEq

/-- The first-render guard of the control-panel effect
(TraceControlPanel.tsx, lines 43-45): skip scheduling while no render has
happened yet and the viewport still equals the 800x600 placeholder. -/
def guardBlocks (hasRenderedOnce : Bool) (c : RenderConfig) : Bool :=
  !hasRenderedOnce && decide (c.viewport.width = 800) && decide (c.viewport.height = 600)

/-- Scheduler state of the control panel: the pending debounce timer (expiry
time and the config captured at scheduling), the `hasRenderedOnce` ref, and
the renders fired so far. -/
structure SchedulerState where
  pending : Option (ℕ × RenderConfig)
  hasRenderedOnce : Bool
  fired : List RenderConfig
deriving DecidableEq

/-- Scheduler state on mount. -/
def initScheduler : SchedulerState :=
  { pending := none, hasRenderedOnce := false, fired := [] }

/-- One run of the control-panel effect at time `t` for config `c`
(TraceControlPanel.tsx, lines 39-68): if the first-render guard blocks,
nothing happens; otherwise the pending timer is cleared and a new one is
scheduled after 250 ms for the first scheduled render and 600 ms afterwards,
and `hasRenderedOnce` is set. -/
def effectRun (t : ℕ) (c : RenderConfig) (s : SchedulerState) : SchedulerState :=
  if guardBlocks s.hasRenderedOnce c then s
  else
    let delay : ℕ := if s.hasRenderedOnce then 600 else 250
    { pending := some (t + delay, c), hasRenderedOnce := true, fired := s.fired }

/-- Timer semantics: a pending timer whose expiry is at or before time `t`
fires (issuing its captured render) before anything else happens at `t`. -/
def fireDue (t : ℕ) (s : SchedulerState) : SchedulerState :=
  match s.pending with
  | some (exp, c) =>
      if exp ≤ t then
        { pending := none, hasRenderedOnce := s.hasRenderedOnce, fired := s.fired ++ [c] }
      else s
  | none => s

/-- Process one render-relevant change event `(t, c)`: first fire any timer
due by `t`, then run the effect. -/
def schedStep (s : SchedulerState) (ev : ℕ × RenderConfig) : SchedulerState :=
  effectRun ev.1 ev.2 (fireDue ev.1 s)

/-- Let the final pending timer (if any) expire. -/
def flushScheduler (s : SchedulerState) : SchedulerState :=
  match s.pending with
  | some (_, c) =>
      { pending := none, hasRenderedOnce := s.hasRenderedOnce, fired := s.fired ++ [c] }
  | none => s

/-- Process a time-ordered list of change events from mount, then let the
last timer expire. -/
def runScheduler (evs : List (ℕ × RenderConfig)) : SchedulerState :=
  flushScheduler (List.foldl schedStep initScheduler evs)

/-- The whole event list falls within successive debounce windows: no change
arrives at or after the expiry of the timer pending at that moment. -/
def noFireBetween : SchedulerState → List (ℕ × RenderConfig) → Bool
  | _, [] => true
  | s, ev :: rest => decide (fireDue ev.1 s = s) && noFireBetween (schedStep s ev) rest

/-- A change event whose timer has not yet fired and whose config passes the
first-render guard replaces the pending timer with a fresh one (250 ms before
the first render, 600 ms afterwards) and marks `hasRenderedOnce`. -/
theorem schedStep_of_noguard (s : SchedulerState) (ev : ℕ × RenderConfig)
    (hfire : fireDue ev.1 s = s) (hguard : guardBlocks false ev.2 = false) :
    schedStep s ev =
      { pending := some (ev.1 + (if s.hasRenderedOnce then 600 else 250), ev.2)
        hasRenderedOnce := true
        fired := s.fired } := by
  have hg : guardBlocks s.hasRenderedOnce ev.2 = false := by
    cases h : s.hasRenderedOnce
    · exact hguard
    · simp [guardBlocks]
  unfold schedStep
  rw [hfire]
  unfold effectRun
  simp [hg]

/-- Processing a guard-passing change sequence that stays within its debounce
windows fires no render and leaves the last change pending. -/
theorem foldl_sched_last (evs : List (ℕ × RenderConfig)) :
    ∀ (s : SchedulerState) (t : ℕ) (c : RenderConfig),
    evs.getLast? = some (t, c) →
    (∀ ev ∈ evs, guardBlocks false ev.2 = false) →
    noFireBetween s evs = true →
    (List.foldl schedStep s evs).fired = s.fired ∧
    (∃ exp, (List.foldl schedStep s evs).pending = some (exp, c)) := by
  induction evs with
  | nil => intro s t c hlast _ _; simp at hlast
  | cons ev rest ih =>
    intro s t c hlast hguard hnofire
    unfold noFireBetween at hnofire
    rw [Bool.and_eq_true, decide_eq_true_iff] at hnofire
    obtain ⟨hfire, hrest⟩ := hnofire
    have hg : guardBlocks false ev.2 = false := hguard ev (by simp)
    have hstep := schedStep_of_noguard s ev hfire hg
    cases rest with
    | nil =>
      have hev : ev = (t, c) := by simpa using hlast
      rw [List.foldl_cons, List.foldl_nil, hstep, hev]
      exact ⟨rfl, ⟨t + (if s.hasRenderedOnce then 600 else 250), rfl⟩⟩
    | cons ev2 rest2 =>
      have hlast2 : (ev2 :: rest2).getLast? = some (t, c) := by
        rw [← hlast]; rfl
      have hguard2 : ∀ e ∈ ev2 :: rest2, guardBlocks false e.2 = false :=
        fun e he => hguard e (List.mem_cons_of_mem ev he)
      obtain ⟨hfired, hpend⟩ := ih (schedStep s ev) t c hlast2 hguard2 hrest
      rw [List.foldl_cons]
      refine ⟨?_, hpend⟩
      rw [hfired, hstep]

end TraceLens

namespace TraceLens

/-- C1: for overlapping render requests the code has no sequence-number
guard: when request A is issued before request B and the response of B is
accepted first, the later-resolving response of A overwrites the displayed
image.  Concretely, with A carrying image 1 and B carrying image 2, the
interleaving issue-A, issue-B, resolve-B, resolve-A leaves image 1 on
screen, not B's image 2 as the claim demands. -/
theorem c1_counterexample :
    (applyEvents initialState
      (issuePhase ("demo.sgy") RenderMode.variableDensity ColormapType.grayscale
          (AmplitudeScaling.perTrace none) DEFAULT_VIEWPORT DEFAULT_WIGGLE_CONFIG ++
        issuePhase ("demo.sgy") RenderMode.variableDensity ColormapType.seismic
          (AmplitudeScaling.perTrace none) DEFAULT_VIEWPORT DEFAULT_WIGGLE_CONFIG ++
        resolvePhase RenderMode.variableDensity (RenderOutcome.success 2) ++
        resolvePhase RenderMode.variableDensity (RenderOutcome.success 1))).currentImage =
      some 1 ∧ (some 1 : Option ℕ) ≠ some 2 :=
  ⟨rfl, by decide⟩

/-- C1 (amended): responses are committed unconditionally in completion
order — for any two overlapping requests, whichever resolve phase runs last
determines the displayed image, and every completion resets `isRendering`
to false. -/
theorem c1_last_completion_wins (s : TraceVisualizationState) (fpA fpB : String)
    (mA mB : RenderMode) (cA cB : ColormapType) (aA aB : AmplitudeScaling)
    (vA vB : ViewportConfig) (wA wB : WiggleConfig) (imgA imgB : ℕ) :
    (applyEvents s
      (issuePhase fpA mA cA aA vA wA ++ issuePhase fpB mB cB aB vB wB ++
        resolvePhase mB (RenderOutcome.success imgB) ++
        resolvePhase mA (RenderOutcome.success imgA))).currentImage = some imgA ∧
    (applyEvents s
      (issuePhase fpA mA cA aA vA wA ++ issuePhase fpB mB cB aB vB wB ++
        resolvePhase mB (RenderOutcome.success imgB) ++
        resolvePhase mA (RenderOutcome.success imgA))).isRendering = false :=
  ⟨rfl, rfl⟩

/-- C2: `updateViewport` does not clamp: committing the partial update
with `startTrace := -5` over the default viewport stores -5, not the 0
the claim requires. -/
theorem c2_counterexample :
    (updateViewport DEFAULT_VIEWPORT { startTrace := some (-5) }).startTrace = -5 ∧
    ((-5 : ℤ) ≠ 0) :=
  ⟨rfl, by decide⟩

/-- C2 (amended): `updateViewport` merges every provided field verbatim into
the current viewport — with no clamping and no rejection — and leaves absent
fields unchanged; in particular negative or sub-minimum values are committed
as given. -/
theorem c2_updateViewport_merges_unclamped (v : ViewportConfig) (n w : ℤ) :
    updateViewport v {} = v ∧
    updateViewport v { startTrace := some n } = { v with startTrace := n } ∧
    updateViewport v { traceCount := some n } = { v with traceCount := n } ∧
    updateViewport v { width := some w } = { v with width := w } ∧
    updateViewport v { height := some w } = { v with height := w } :=
  ⟨rfl, rfl, rfl, rfl, rfl⟩

/-- C3: the resize-significance predicate holds iff the area delta reaches
`max(2000, round(0.005 * w0 * h0))` or either dimension delta reaches
`max(6, round(0.008 * min(w0, h0)))`; consequently a resize of the 800x600
default to 802x601 schedules no viewport commit while a resize to 900x700
does. -/
theorem c3_resize_significance :
    (∀ w0 h0 w1 h1 : ℤ,
      isResizeSignificant w0 h0 w1 h1 = true ↔
        (|w1 * h1 - w0 * h0| ≥ max 2000 (jsRound (((w0 * h0 : ℤ) : ℚ) * (5 / 1000))) ∨
          |w1 - w0| ≥ max 6 (jsRound (((min w0 h0 : ℤ) : ℚ) * (8 / 1000))) ∨
          |h1 - h0| ≥ max 6 (jsRound (((min w0 h0 : ℤ) : ℚ) * (8 / 1000))))) ∧
    handleResizeSchedules DEFAULT_VIEWPORT 802 601 = false ∧
    handleResizeSchedules DEFAULT_VIEWPORT 900 700 = true := by
  refine ⟨fun w0 h0 w1 h1 => ?_, ?_, ?_⟩
  · simp only [isResizeSignificant, ge_iff_le, Bool.or_eq_true, decide_eq_true_iff]
    tauto
  · norm_num [handleResizeSchedules, isResizeSignificant, clampSize, jsRound, DEFAULT_VIEWPORT]
  · norm_num [handleResizeSchedules, isResizeSignificant, clampSize, jsRound, DEFAULT_VIEWPORT]

/-- Each single wheel event lands in [0.1, 10]. -/
theorem handleWheel_bounds (z d : ℚ) :
    1 / 10 ≤ handleWheel z d ∧ handleWheel z d ≤ 10 :=
  ⟨le_max_left _ _, max_le (by norm_num) (min_le_left _ _)⟩

/-- Zoom stays in [0.1, 10] under any wheel-event sequence from a start in
range. -/
theorem zoomAfter_bounds (evs : List ℚ) :
    ∀ z0 : ℚ, 1 / 10 ≤ z0 → z0 ≤ 10 →
      1 / 10 ≤ zoomAfter z0 evs ∧ zoomAfter z0 evs ≤ 10 := by
  induction evs with
  | nil => intro z0 h1 h2; exact ⟨h1, h2⟩
  | cons d rest ih =>
    intro z0 _ _
    exact ih (handleWheel z0 d) (handleWheel_bounds z0 d).1 (handleWheel_bounds z0 d).2

/-- C4: each wheel event multiplies the zoom by 1.1 (deltaY not positive,
zoom in) or 0.9 (deltaY positive, zoom out) and clamps into [0.1, 10]; from
any start inside [0.1, 10], the zoom after every sequence of wheel events
remains within [0.1, 10]. -/
theorem c4_zoom_clamped (z0 : ℚ) (h1 : 1 / 10 ≤ z0) (h2 : z0 ≤ 10) (evs : List ℚ) :
    (∀ d : ℚ, handleWheel z0 d =
      max (1 / 10) (min 10 (z0 * (if d > 0 then 9 / 10 else 11 / 10)))) ∧
    1 / 10 ≤ zoomAfter z0 evs ∧ zoomAfter z0 evs ≤ 10 :=
  ⟨fun _ => rfl, zoomAfter_bounds evs z0 h1 h2⟩

/-- C4 witness: a concrete wheel sequence from zoom 1 stays in range. -/
theorem c4_zoom_clamped_witness :
    1 / 10 ≤ zoomAfter 1 [1, -1, 1, 1] ∧ zoomAfter 1 [1, -1, 1, 1] ≤ 10 :=
  (c4_zoom_clamped 1 (by norm_num) (by norm_num) [1, -1, 1, 1]).2

/-- C5: the payload handed to the backend carries a non-null `wiggleConfig`
exactly when the render mode is not pure variable-density: the store's wiggle
configuration is passed through for wiggle and wiggle-variable-density and
replaced by null for variable-density. -/
theorem c5_wiggle_payload (fp : String) (v : ViewportConfig) (cm : ColormapType)
    (sc : AmplitudeScaling) (wc : WiggleConfig) :
    (∀ m : RenderMode,
      (renderVariableDensity fp v cm sc m wc).wiggleConfig ≠ none ↔
        m ≠ RenderMode.variableDensity) ∧
    (renderVariableDensity fp v cm sc RenderMode.wiggle wc).wiggleConfig = some wc ∧
    (renderVariableDensity fp v cm sc RenderMode.wiggleVariableDensity wc).wiggleConfig =
      some wc ∧
    (renderVariableDensity fp v cm sc RenderMode.variableDensity wc).wiggleConfig = none := by
  refine ⟨fun m => ?_, ?_, ?_, ?_⟩
  · cases m <;> simp [renderVariableDensity]
  · simp [renderVariableDensity]
  · simp [renderVariableDensity]
  · simp [renderVariableDensity]

/-- C6: a render failure arriving for a superseded request is not silent —
the code has no staleness distinction, so the stale failure still emits the
user-visible error toast.  In the interleaving issue-A, issue-B, resolve-B
(success), resolve-A (failure), A's resolution is stale yet its event list
contains the error toast. -/
theorem c6_counterexample :
    Event.toast ToastKind.error ("Rendering failed for VD: boom") ∈
      resolvePhase RenderMode.variableDensity (RenderOutcome.rendererError ("boom")) ∧
    (applyEvents initialState
      (issuePhase ("demo.sgy") RenderMode.variableDensity ColormapType.grayscale
          (AmplitudeScaling.perTrace none) DEFAULT_VIEWPORT DEFAULT_WIGGLE_CONFIG ++
        issuePhase ("demo.sgy") RenderMode.variableDensity ColormapType.seismic
          (AmplitudeScaling.perTrace none) DEFAULT_VIEWPORT DEFAULT_WIGGLE_CONFIG ++
        resolvePhase RenderMode.variableDensity (RenderOutcome.success 2) ++
        resolvePhase RenderMode.variableDensity
          (RenderOutcome.rendererError ("boom")))).currentImage = some 2 := by
  constructor
  · simp [resolvePhase, modeLabel]
  · rfl

/-- C6 (amended): every render failure — whether or not it has been
superseded — surfaces a user-visible error toast, resets `isRendering` to
false, and leaves `currentImage` untouched; a decode failure of the returned
bytes is handled identically. -/
theorem c6_failure_handling (s : TraceVisualizationState) (m : RenderMode) (msg : String) :
    applyEvents s (resolvePhase m (RenderOutcome.rendererError msg)) =
      { s with isRendering := false } ∧
    (applyEvents s (resolvePhase m (RenderOutcome.rendererError msg))).currentImage =
      s.currentImage ∧
    Event.toast ToastKind.error ("Rendering failed for " ++ modeLabel m ++ ": " ++ msg) ∈
      resolvePhase m (RenderOutcome.rendererError msg) ∧
    applyEvents s (resolvePhase m RenderOutcome.decodeError) =
      { s with isRendering := false } ∧
    Event.toast ToastKind.error
        ("Rendering failed for " ++ modeLabel m ++
          ": Failed to load rendered image from backend data") ∈
      resolvePhase m RenderOutcome.decodeError := by
  refine ⟨rfl, rfl, ?_, rfl, ?_⟩
  · exact List.mem_cons_self _ _
  · exact List.mem_cons_self _ _

/-- C7: within one debounce window every render-relevant change cancels the
pending timer and restarts it, so a settled change sequence fires exactly one
render, carrying the final configuration (trailing edge, no leading edge). -/
theorem c7_debounce_single_render (evs : List (ℕ × RenderConfig)) (t : ℕ) (c : RenderConfig)
    (hlast : evs.getLast? = some (t, c))
    (hguard : ∀ ev ∈ evs, guardBlocks false ev.2 = false)
    (hwin : noFireBetween initScheduler evs = true) :
    (runScheduler evs).fired = [c] ∧
    (∀ u d, guardBlocks false d = false →
      (effectRun u d initScheduler).pending = some (u + 250, d)) ∧
    (∀ u (d : RenderConfig) (s : SchedulerState), s.hasRenderedOnce = true →
      (effectRun u d s).pending = some (u + 600, d)) := by
  refine ⟨?_, ?_, ?_⟩
  · obtain ⟨hfired, exp, hpend⟩ := foldl_sched_last evs initScheduler t c hlast hguard hwin
    unfold runScheduler flushScheduler
    rw [hpend, hfired]
    rfl
  · intro u d hg
    simp [effectRun, initScheduler, hg]
  · intro u d s hro
    simp [effectRun, hro, guardBlocks]

/-- C7 witness: two changes 200 ms apart (inside the 250 ms first window)
fire exactly one render, for the second configuration. -/
theorem c7_debounce_single_render_witness :
    (runScheduler
      [(0, ⟨RenderMode.variableDensity, ColormapType.grayscale,
            AmplitudeScaling.perTrace none, ⟨0, 500, 1000, 800⟩⟩),
       (200, ⟨RenderMode.wiggle, ColormapType.grayscale,
            AmplitudeScaling.perTrace none, ⟨0, 500, 1000, 800⟩⟩)]).fired =
      [⟨RenderMode.wiggle, ColormapType.grayscale,
        AmplitudeScaling.perTrace none, ⟨0, 500, 1000, 800⟩⟩] :=
  (c7_debounce_single_render
    [(0, ⟨RenderMode.variableDensity, ColormapType.grayscale,
          AmplitudeScaling.perTrace none, ⟨0, 500, 1000, 800⟩⟩),
     (200, ⟨RenderMode.wiggle, ColormapType.grayscale,
          AmplitudeScaling.perTrace none, ⟨0, 500, 1000, 800⟩⟩)]
    200
    ⟨RenderMode.wiggle, ColormapType.grayscale,
      AmplitudeScaling.perTrace none, ⟨0, 500, 1000, 800⟩⟩
    (by decide) (by decide) (by decide)).1

/-- C8: while every observed configuration still carries the unmeasured
800x600 placeholder viewport and no render has happened, the scheduler stays
in its initial state: no timer is ever started and no render fires. -/
theorem c8_placeholder_defers (evs : List (ℕ × RenderConfig))
    (h : ∀ ev ∈ evs, ev.2.viewport.width = 800 ∧ ev.2.viewport.height = 600) :
    List.foldl schedStep initScheduler evs = initScheduler ∧
    (runScheduler evs).fired = [] := by
  have main : List.foldl schedStep initScheduler evs = initScheduler := by
    induction evs with
    | nil => rfl
    | cons ev rest ih =>
      have h1 := h ev (by simp)
      have hstep : schedStep initScheduler ev = initScheduler := by
        simp [schedStep, fireDue, initScheduler, effectRun, guardBlocks, h1.1, h1.2]
      rw [List.foldl_cons, hstep]
      exact ih fun e he => h e (List.mem_cons_of_mem ev he)
  refine ⟨main, ?_⟩
  unfold runScheduler
  rw [main]
  rfl

/-- C8 witness: a change event carrying the 800x600 placeholder viewport
schedules nothing. -/
theorem c8_placeholder_defers_witness :
    (runScheduler
      [(0, ⟨RenderMode.variableDensity, ColormapType.grayscale,
            AmplitudeScaling.perTrace none, ⟨0, 500, 800, 600⟩⟩)]).fired = [] :=
  (c8_placeholder_defers
    [(0, ⟨RenderMode.variableDensity, ColormapType.grayscale,
          AmplitudeScaling.perTrace none, ⟨0, 500, 800, 600⟩⟩)]
    (by decide)).2

/-- C9: a run of the render loader — guard-skipped, successful, rejected, or
failing to decode — never changes `zoomLevel` or `panOffset`: its store
writes are confined to `isRendering` and `currentImage`. -/
theorem c9_render_preserves_view (s : TraceVisualizationState) (fp : Option String)
    (sd : Option Unit) (m : RenderMode) (cm : ColormapType) (sc : AmplitudeScaling)
    (v : ViewportConfig) (wc : WiggleConfig) (outcome : RenderOutcome) :
    (applyEvents s (loadAndRenderVariableDensity fp sd m cm sc v wc outcome)).zoomLevel =
      s.zoomLevel ∧
    (applyEvents s (loadAndRenderVariableDensity fp sd m cm sc v wc outcome)).panOffset =
      s.panOffset := by
  unfold loadAndRenderVariableDensity
  cases h : (jsFalsyString fp || sd.isNone) <;>
    cases outcome <;>
      simp [applyEvents, issuePhase, resolvePhase, applyAction]

/-- C10: with no file loaded (null path or null parsed data) the loader
short-circuits: its whole trace is a single error toast, the store is left
exactly as it was (in particular `isRendering` is never set), and no renderer
call is issued. -/
theorem c10_no_file_no_render (s : TraceVisualizationState) (fp : Option String)
    (sd : Option Unit) (m : RenderMode) (cm : ColormapType) (sc : AmplitudeScaling)
    (v : ViewportConfig) (wc : WiggleConfig) (outcome : RenderOutcome)
    (h : fp = none ∨ sd = none) :
    loadAndRenderVariableDensity fp sd m cm sc v wc outcome =
      [Event.toast ToastKind.error ("Cannot render: No SEG-Y file loaded")] ∧
    applyEvents s (loadAndRenderVariableDensity fp sd m cm sc v wc outcome) = s ∧
    ∀ p, Event.rendererCall p ∉ loadAndRenderVariableDensity fp sd m cm sc v wc outcome := by
  have hguard : (jsFalsyString fp || sd.isNone) = true := by
    rcases h with h | h <;> subst h <;> simp [jsFalsyString]
  have htrace : loadAndRenderVariableDensity fp sd m cm sc v wc outcome =
      [Event.toast ToastKind.error ("Cannot render: No SEG-Y file loaded")] := by
    unfold loadAndRenderVariableDensity
    rw [hguard]
    rfl
  refine ⟨htrace, ?_, ?_⟩
  · rw [htrace]; rfl
  · intro p
    rw [htrace]
    simp

/-- C10 witness: with a null file path the trace is exactly the error toast. -/
theorem c10_no_file_no_render_witness :
    loadAndRenderVariableDensity none (some ()) RenderMode.variableDensity
        ColormapType.grayscale (AmplitudeScaling.perTrace none) DEFAULT_VIEWPORT
        DEFAULT_WIGGLE_CONFIG (RenderOutcome.success 1) =
      [Event.toast ToastKind.error ("Cannot render: No SEG-Y file loaded")] :=
  (c10_no_file_no_render initialState none (some ()) RenderMode.variableDensity
    ColormapType.grayscale (AmplitudeScaling.perTrace none) DEFAULT_VIEWPORT
    DEFAULT_WIGGLE_CONFIG (RenderOutcome.success 1) (Or.inl rfl)).1

end TraceLens
